import Mathlib

/-!
Verification development for the ACCESS trial script
(`src/optimisation/impellers_access_seed42/access_script.py`).

The script drives one optimisation trial: it binds a parameter set, builds a
trial case from a template, runs geometry / mesh / CFD stages under timeout
supervision, extracts windowed statistics from the solver's time series, and
persists an error vector. The definitions below are a shallow embedding of
that script: machine floats are modelled as rationals, external processes by
their observable behaviour (exit code within the window, or hanging past the
timeout), and the filesystem interactions by explicit state.
-/

/-! ## Parameter binder (`create_parameters`, lines 59-64)

In the source, for each named parameter the bound value is
`kw[v][2] if len(kw[v]) == 3 else (kw[v][0] + kw[v][1]) / 2`,
with minimum `kw[v][0]` and maximum `kw[v][1]`. -/

/-- Value bound for one parameter tuple: the explicit third entry when the
tuple has length 3, otherwise the midpoint of the first two entries. -/
def bindValue (t : List ℚ) : ℚ :=
  if t.length = 3 then t.getD 2 0 else (t.getD 0 0 + t.getD 1 0) / 2

/-- Embedding of `create_parameters`: maps each named tuple to
(name, minimum, maximum, bound value), in input order. -/
def createParameters (kw : List (String × List ℚ)) : List (String × ℚ × ℚ × ℚ) :=
  kw.map fun p => (p.1, p.2.getD 0 0, p.2.getD 1 0, bindValue p.2)

/-! ## Process supervisor (`system` line 80-85, `system_timeout` lines 88-109)

`system` runs a command with `check=True`: a nonzero exit raises
`CalledProcessError`. `system_timeout` launches the command and waits up to
the timeout: on a natural exit with nonzero code it calls `os._exit(1)`
(killing the whole trial process); on a natural zero exit it returns `True`;
on timeout expiry it terminates the process, waits up to 10 seconds, kills it
if still alive, and returns `False` in either case. -/

/-- Observable behaviour of one supervised external command: it either exits
naturally (with some exit code) inside the timeout window, or hangs past it. -/
inductive ProcBehavior where
  | exits (code : ℕ)
  | hangs
deriving DecidableEq, Repr

/-- What `system_timeout` does to its caller: a normal return of the Python
`True`/`False` flag (`finished`), or `os._exit(1)` which terminates the whole
trial process without unwinding. -/
inductive SupRes where
  | ret (finished : Bool)
  | exitProc
deriving DecidableEq, Repr

/-- Termination-escalation actions issued on timeout expiry, in order. -/
inductive TermAction where
  | terminate
  | waitGrace (seconds : ℕ)
  | kill
deriving DecidableEq, Repr

/-- Grace period of `process.wait(timeout=10)` after the graceful terminate. -/
def gracePeriod : ℕ := 10

/-- Embedding of `system_timeout`: result returned to the caller, paired with
the ordered termination actions issued. `survivesTerminate` records whether
the external process outlives the graceful terminate plus grace period,
forcing the `kill`. -/
def system_timeout (b : ProcBehavior) (survivesTerminate : Bool) :
    SupRes × List TermAction :=
  match b with
  | .exits 0 => (.ret true, [])
  | .exits (_ + 1) => (.exitProc, [])
  | .hangs =>
      if survivesTerminate then
        (.ret false, [.terminate, .waitGrace gracePeriod, .kill])
      else
        (.ret false, [.terminate, .waitGrace gracePeriod])

/-- Outcome of one unsupervised pipeline step as seen by the pipeline:
normal completion, a raised Python exception, or `os._exit`. -/
inductive StageStatus where
  | ok
  | raised (msg : String)
  | hardExit
deriving DecidableEq, Repr

/-- Embedding of `system` (`subprocess.run(cmd, check=True)`) by the exit
code of the command: code 0 completes, anything else raises
`CalledProcessError`. -/
def system (exitCode : ℕ) : StageStatus :=
  if exitCode = 0 then .ok else .raised "CalledProcessError"

/-! ## Result extractor (lines 236-266)

For each metric the script selects the rows of the latest time series whose
timestamp exceeds the final timestamp minus 1 and averages the value column.
It then raises when the volAverage series' final time is below 20, clamps the
CoV mean below at 0.5, and builds `error = [-epsilon_avg, 1 / epsilon_cov]`. -/

/-- Final timestamp `data[-1, 0]` of a time series (rows are
(timestamp, value); series are nonempty in every real extraction). -/
def lastTime (data : List (ℚ × ℚ)) : ℚ :=
  match data.getLast? with
  | some row => row.1
  | none => 0

/-- Values selected by `data[:, 0] > data[-1, 0] - 1`: the value column of
the rows in the trailing one-second window. -/
def windowSelect (data : List (ℚ × ℚ)) : List ℚ :=
  (data.filter fun row => decide (row.1 > lastTime data - 1)).map Prod.snd

/-- Arithmetic mean of a list of rationals (`.mean()`). -/
def listMean (xs : List ℚ) : ℚ :=
  xs.sum / (xs.length : ℚ)

/-- The error vector `[-epsilon_avg, 1 / max(epsilon_cov, 0.5)]` built from
the CoV and volAverage series (lines 241, 247, 262, 266). -/
def errorVector (covData avgData : List (ℚ × ℚ)) : List ℚ :=
  [-(listMean (windowSelect avgData)),
    1 / max (listMean (windowSelect covData)) (1 / 2)]

/-- Embedding of the whole extraction block: both windowed means are
computed, then the script raises `RuntimeError("Simulation did not run for
20 seconds")` when `avg_data[-1, 0] < 20` (the spec's
`InsufficientRuntimeError`), otherwise the error vector is produced. -/
def extractError (covData avgData : List (ℚ × ℚ)) : Except String (List ℚ) :=
  if lastTime avgData < 20 then
    .error "Simulation did not run for 20 seconds"
  else
    .ok (errorVector covData avgData)

/-- Whether an extraction result is a raised error. -/
def isError (r : Except String (List ℚ)) : Bool :=
  match r with
  | .error _ => true
  | .ok _ => false

/-- Synthetic time series with timestamps 0, 1, ..., 25 and values given by
`v` (the spec's testable-property input). -/
def synSeries (v : ℕ → ℚ) : List (ℚ × ℚ) :=
  (List.range 26).map fun (i : ℕ) => ((i : ℚ), v i)

/-! ## Stage pipeline (`mesh_case` lines 206-218, `run_case` lines 221-228,
and the extraction / persistence tail, lines 231-273)

The behaviours of the external commands of one trial: exit codes of the two
geometry scripts and of the three `rm -rf` cleanups (all run through
`system`, hence `check=True`), and the supervised behaviour of the mesh and
CFD stages. -/

/-- Observable behaviours of the external commands of one trial. -/
structure StageBehaviors where
  geomVessel : ℕ
  geomImpeller : ℕ
  mesh : ProcBehavior
  meshSurvivesTerm : Bool
  meshCleanup : ℕ
  cfd : ProcBehavior
  cfdSurvivesTerm : Bool
  cfdCleanupMesh : ℕ
  cfdCleanupCfd : ℕ
deriving DecidableEq, Repr

/-- Embedding of `mesh_case`: the two geometry scripts run via `system`, the
mesher via `system_timeout` (a timeout raises `RuntimeError("Meshing timed
out")`; a nonzero natural exit is `os._exit(1)` inside the supervisor), then
the decomposed-mesh cleanup runs via `system`. -/
def mesh_case (b : StageBehaviors) : StageStatus :=
  match system b.geomVessel with
  | .ok =>
      match system b.geomImpeller with
      | .ok =>
          match system_timeout b.mesh b.meshSurvivesTerm with
          | (.exitProc, _) => .hardExit
          | (.ret false, _) => .raised "Meshing timed out"
          | (.ret true, _) => system b.meshCleanup
      | s => s
  | s => s

/-- Embedding of `run_case`: the CFD stage runs via `system_timeout` with an
11-hour timeout and its returned flag is discarded, then the two
reconstructed-mesh cleanups run via `system`. -/
def run_case (b : StageBehaviors) : StageStatus :=
  match system_timeout b.cfd b.cfdSurvivesTerm with
  | (.exitProc, _) => .hardExit
  | (.ret _, _) =>
      match system b.cfdCleanupMesh with
      | .ok => system b.cfdCleanupCfd
      | s => s

/-- Final observable outcome of one trial: the error vector persisted to the
output path, a raised exception (no output file), or `os._exit` (no output
file). -/
inductive TrialResult where
  | persisted (errVec : List ℚ)
  | raised (msg : String)
  | hardExit
deriving DecidableEq, Repr

/-- Embedding of the trial tail `mesh_case(trial_path); run_case(trial_path)`
followed by extraction and persistence: only a fully normal pipeline reaches
extraction, and only a successful extraction persists an output file. -/
def trial (b : StageBehaviors) (covData avgData : List (ℚ × ℚ)) : TrialResult :=
  match mesh_case b with
  | .raised m => .raised m
  | .hardExit => .hardExit
  | .ok =>
      match run_case b with
      | .raised m => .raised m
      | .hardExit => .hardExit
      | .ok =>
          match extractError covData avgData with
          | .error m => .raised m
          | .ok v => .persisted v

/-! ## Output persister (lines 271-273)

The script runs `open(sys.argv[2], "wb")` — which creates or truncates the
output file in place — and then `pickle.dump(error, f)`. The observable
contents of the output path therefore pass through an empty state before the
complete payload is written; there is no temporary file and no rename. -/

/-- Ordered observable contents of the output path during persistence:
after `open(..., "wb")` the file exists and is empty; after `pickle.dump`
and close it holds the full serialized payload. -/
def persistStates (payload : List ℕ) : List (List ℕ) :=
  [[], payload]

/-- Spec-side definition (for the refinement comparison): a persistence is
atomic from the consumer's point of view when every observable state of the
output path already holds the complete payload. -/
def atomicFromConsumer (states : List (List ℕ)) (payload : List ℕ) : Prop :=
  ∀ s ∈ states, s = payload

instance (states : List (List ℕ)) (payload : List ℕ) :
    Decidable (atomicFromConsumer states payload) :=
  inferInstanceAs (Decidable (∀ s ∈ states, s = payload))

/-! ## Concrete example inputs used by counterexamples and witnesses. -/

/-- CoV series whose trailing-window mean is 1 (last time 25). -/
def covEx : List (ℚ × ℚ) := [(0, 1), (25, 1)]

/-- volAverage series whose trailing-window mean is 3 (last time 25). -/
def avgEx : List (ℚ × ℚ) := [(0, 2), (25, 3)]

/-- CoV series that ends at time 5, i.e. runs for under 20 seconds. -/
def covShort : List (ℚ × ℚ) := [(0, 1), (5, 1)]

/-- Stage behaviours where every stage exits 0 within its window. -/
def bAllGood : StageBehaviors :=
  ⟨0, 0, .exits 0, false, 0, .exits 0, false, 0, 0⟩

/-- Stage behaviours where only the CFD stage times out. -/
def bSolveTimeout : StageBehaviors :=
  ⟨0, 0, .exits 0, false, 0, .hangs, false, 0, 0⟩

/-- Stage behaviours where only the decomposed-mesh cleanup fails. -/
def bCleanupFail : StageBehaviors :=
  ⟨0, 0, .exits 0, false, 1, .exits 0, false, 0, 0⟩

/-- Stage behaviours where the decomposed-mesh cleanup exits with code 2. -/
def bCleanupFail2 : StageBehaviors :=
  ⟨0, 0, .exits 0, false, 2, .exits 0, false, 0, 0⟩

/-! ## Case builder (`create_case`, lines 112-203)

The builder copies the template tree into the trial directory with
`dirs_exist_ok=True` (an existing workspace does not fail and its files are
overwritten by the template's), computes derived geometric quantities from
the parameter values, and rewrites specific keys of three settings documents
read-modify-write. Documents are modelled as flat key/value lists with
nested TOML paths flattened to slash-separated keys; parameter lookup
`parameters["value"][name]` is modelled by a total valuation. -/

/-- Flat key/value view of one TOML settings document. -/
abbrev Doc := List (String × ℚ)

/-- Assignment `settings[key] = value` on a loaded document: replaces the
value at an existing key, appends the pair otherwise. -/
def setKey (d : Doc) (k : String) (v : ℚ) : Doc :=
  if d.any fun e => e.1 == k then
    d.map fun e => if e.1 == k then (k, v) else e
  else
    d ++ [(k, v)]

/-- Python's `round` (half to even) on a rational, used for the blade
`around_number` and `repeat_number` settings. -/
def pyRound (q : ℚ) : ℤ :=
  let f : ℤ := q.floor
  let r : ℚ := q - (f : ℚ)
  if r < 1 / 2 then f
  else if 1 / 2 < r then f + 1
  else if 2 ∣ f then f else f + 1

/-- The three settings documents of one trial workspace that `create_case`
rewrites (vessel geometry, impeller geometry, meshing). -/
structure Workspace where
  vesselDoc : Doc
  impellerDoc : Doc
  meshDoc : Doc
deriving DecidableEq, Repr

/-- Embedding of `create_case`: copy the template over the workspace
(`shutil.copytree(..., dirs_exist_ok=True)` overwrites the settings
documents), derive the geometric quantities, and rewrite the settings keys
read-modify-write exactly as lines 118-203 do. `p` is the parameter
valuation `parameters["value"]`. -/
def create_case (template : Workspace) (p : String → ℚ) (ws : Workspace) :
    Workspace :=
  let ws := template
  let vessel_height : ℚ := 2000
  let vessel_base_clearance : ℚ := 600
  let vessel_diameter : ℚ := 2000
  let bottom_clearance := p "bottom_clearance"
  let vessel_height0 := vessel_base_clearance - vessel_height * bottom_clearance
  let xplace := p "xplace"
  let vessel_xtranslate := -vessel_diameter / 2 * xplace
  let yplace := p "yplace"
  let vessel_ytranslate := -vessel_diameter / 2 * yplace
  let impeller_height_ratio := p "impeller/height_ratio"
  let impeller_height := vessel_height * (1 - bottom_clearance) * impeller_height_ratio
  let max_translate := max |xplace| |yplace|
  let impeller_diameter_ratio := p "impeller/diameter_ratio"
  let impeller_diameter := vessel_diameter * (1 - max_translate) * impeller_diameter_ratio
  let vesselDoc :=
    let d := ws.vesselDoc
    let d := setKey d "height0" vessel_height0
    let d := setKey d "xtranslate" vessel_xtranslate
    setKey d "ytranslate" vessel_ytranslate
  let impellerDoc :=
    let d := ws.impellerDoc
    let d := setKey d "height" impeller_height
    let d := setKey d "diameter" impeller_diameter
    let d := setKey d "Blades/0/place_rel" (p "impeller/0/place_rel")
    let d := setKey d "Blades/0/xlen_rel" (p "impeller/0/xlen_rel")
    let d := setKey d "Blades/0/ylen_rel" (p "impeller/0/ylen_rel")
    let d := setKey d "Blades/0/joint_place" (p "impeller/0/joint_place")
    let d := setKey d "Blades/0/joint_angle" (p "impeller/0/joint_angle")
    let d := setKey d "Blades/0/lean_place" (p "impeller/0/lean_place")
    let d := setKey d "Blades/0/lean_angle" (p "impeller/0/lean_angle")
    let d := setKey d "Blades/0/turn_place" (p "impeller/0/turn_place")
    let d := setKey d "Blades/0/turn_angle" (p "impeller/0/turn_angle")
    let d := setKey d "Blades/0/twist" (p "impeller/0/twist")
    let d := setKey d "Blades/0/helix" (p "impeller/0/helix")
    let d := setKey d "Blades/0/curl" (p "impeller/0/curl")
    let d := setKey d "Blades/0/around_number"
      ((pyRound (p "impeller/0/around_number") : ℚ))
    let d := setKey d "Blades/0/repeat_number"
      ((pyRound (p "impeller/0/repeat_number") : ℚ))
    let d := setKey d "Blades/0/repeat_heights_equal" (p "impeller/0/repeat_heights_equal")
    let d := setKey d "Blades/0/repeat_angles_bias" (p "impeller/0/repeat_angles_bias")
    let d := setKey d "FidgetSurface/0/alpha1" (p "impeller/fidgetsurface/0/alpha1")
    setKey d "FidgetSurface/0/beta1" (p "impeller/fidgetsurface/0/beta1")
  let rotation_height0 : ℚ := -(50 / 1000)
  let rotation_height1 := impeller_height / 1000 + 50 / 1000
  let rotation_radius := impeller_diameter / 1000 / 2 + 50 / 1000
  let meshDoc :=
    let d := ws.meshDoc
    let d := setKey d "RotationVolume/height0" rotation_height0
    let d := setKey d "RotationVolume/height1" rotation_height1
    let d := setKey d "RotationVolume/radius" rotation_radius
    let d := setKey d "Mesh/xscale" (1 / 2 * (1 / 2) / rotation_radius)
    let d := setKey d "Mesh/yscale" (1 / 2 * (1 / 2) / rotation_radius)
    setKey d "Mesh/zscale" (1 / 2 * (1 / 2) / rotation_radius)
  ⟨vesselDoc, impellerDoc, meshDoc⟩

/-! ## Theorems -/

/-- C8: for every named parameter, a 2-tuple [min, max] binds the default
value (min + max) / 2, and a 3-tuple [min, max, value] binds the explicit
value. -/
theorem createParameters_tuple_binding (n m : String) (a b c : ℚ) :
    createParameters [(n, [a, b]), (m, [a, b, c])] =
      [(n, a, b, (a + b) / 2), (m, a, b, c)] := by
  simp [createParameters, bindValue]

/-- C4: on timeout expiry the supervisor first sends the graceful terminate,
then waits up to the fixed 10-second grace period, sends a forced kill only
if the process is still alive, and returns the timed-out outcome
(`ret false`) to the caller in either case. -/
theorem system_timeout_escalation :
    gracePeriod = 10 ∧
      ∀ s : Bool,
        system_timeout .hangs s =
          (.ret false,
            .terminate :: .waitGrace gracePeriod ::
              (if s then [TermAction.kill] else [])) := by
  refine ⟨rfl, ?_⟩
  intro s
  cases s <;> rfl

/-- C3 counterexample: a command that exits naturally within the window with
code 1 does not make the supervisor return `Completed(1)` to the caller —
the supervisor calls `os._exit(1)` itself. -/
theorem system_timeout_nonzero_exit_counterexample :
    (system_timeout (.exits 1) false).1 = .exitProc ∧
      SupRes.exitProc ≠ .ret true ∧ SupRes.exitProc ≠ .ret false := by
  refine ⟨rfl, ?_, ?_⟩ <;> intro h <;> cases h

/-- C3 amended: on a natural exit within the window the supervisor returns
normally only when the exit code is 0; on any nonzero exit code it
terminates the whole trial itself via `os._exit(1)` instead of returning,
so the caller never gets to decide fatality. -/
theorem system_timeout_exit_policy (c : ℕ) (s : Bool) :
    system_timeout (.exits c) s =
      if c = 0 then (.ret true, []) else (.exitProc, []) := by
  cases c <;> rfl

/-- C1 counterexample: for the CoV series [(0,1),(25,1)] the trailing-window
mean is 1, the clamp at 0.5 leaves it unchanged, and the second component of
the error vector is 1/1 = 1, which is less than 2 — refuting "the second
objective is never less than 2". -/
theorem errorVector_second_counterexample :
    (errorVector covEx avgEx).getD 1 0 = 1 ∧
      ¬ 2 ≤ (errorVector covEx avgEx).getD 1 0 := by
  have h : errorVector covEx avgEx = [-3, 1] := by
    norm_num [errorVector, listMean, windowSelect, lastTime, covEx, avgEx,
      List.filter]
  rw [h]
  norm_num

/-- C1 amended: the second component of the error vector, computed as 1
divided by the windowed CoV mean clamped below at 0.5, is never greater
than 2 (it equals 2 exactly when the clamp binds). -/
theorem errorVector_second_at_most_two (covData avgData : List (ℚ × ℚ)) :
    (errorVector covData avgData).getD 1 0 ≤ 2 := by
  have hget : (errorVector covData avgData).getD 1 0 =
      1 / max (listMean (windowSelect covData)) (1 / 2) := rfl
  have hmax : (1 : ℚ) / 2 ≤ max (listMean (windowSelect covData)) (1 / 2) :=
    le_max_right _ _
  have hpos : (0 : ℚ) < max (listMean (windowSelect covData)) (1 / 2) := by
    linarith
  rw [hget, div_le_iff₀ hpos]
  linarith

/-- C2 counterexample: with both geometry scripts and the mesher exiting 0
but the CFD solve stage hanging past its timeout, the trial still extracts
results and persists an error vector — refuting "a timeout of any stage
(including the solve stage) prevents result extraction and no output file is
written". -/
theorem solve_timeout_persists_counterexample :
    bSolveTimeout.cfd = .hangs ∧
      trial bSolveTimeout covEx avgEx = .persisted [-3, 1] := by
  constructor
  · rfl
  · norm_num [trial, mesh_case, run_case, system, system_timeout,
      bSolveTimeout, extractError, errorVector, listMean, windowSelect,
      lastTime, covEx, avgEx, List.filter]

/-- C2 amended: an error vector is persisted only if the geometry stages and
all cleanups exit 0, the mesh stage completes with exit code 0 within its
window, the extraction runtime check passes, and the solve stage either
completes with exit code 0 or times out — a solve timeout does not prevent
extraction and persistence, while a mesh timeout or any nonzero exit does. -/
theorem trial_persist_conditions (b : StageBehaviors)
    (covData avgData : List (ℚ × ℚ)) (v : List ℚ)
    (h : trial b covData avgData = .persisted v) :
    b.geomVessel = 0 ∧ b.geomImpeller = 0 ∧ b.mesh = .exits 0 ∧
      b.meshCleanup = 0 ∧ (b.cfd = .exits 0 ∨ b.cfd = .hangs) ∧
      b.cfdCleanupMesh = 0 ∧ b.cfdCleanupCfd = 0 ∧
      ¬ lastTime avgData < 20 ∧ v = errorVector covData avgData := by
  obtain ⟨gv, gi, mesh, msurv, mc, cfd, csurv, c4, c5⟩ := b
  simp only [trial, mesh_case, run_case, system, system_timeout,
    extractError] at h
  by_cases hgv : gv = 0 <;> simp [hgv] at h
  by_cases hgi : gi = 0 <;> simp [hgi] at h
  cases mesh with
  | hangs =>
      cases msurv <;> simp at h
  | exits n =>
      cases n with
      | succ k => simp at h
      | zero =>
          simp at h
          by_cases hmc : mc = 0 <;> simp [hmc] at h
          cases cfd with
          | hangs =>
              cases csurv <;> simp at h <;>
              · by_cases hc4 : c4 = 0 <;> simp [hc4] at h
                by_cases hc5 : c5 = 0 <;> simp [hc5] at h
                by_cases hlt : lastTime avgData < 20 <;> simp [hlt] at h
                simp_all
          | exits n2 =>
              cases n2 with
              | succ k2 => simp at h
              | zero =>
                  simp at h
                  by_cases hc4 : c4 = 0 <;> simp [hc4] at h
                  by_cases hc5 : c5 = 0 <;> simp [hc5] at h
                  by_cases hlt : lastTime avgData < 20 <;> simp [hlt] at h
                  simp_all

/-- C2 witness: a concrete trial where every stage exits 0 does persist, and
the conditions of the persist theorem hold of it. -/
theorem trial_persist_conditions_witness :
    bAllGood.mesh = .exits 0 ∧
      (bAllGood.cfd = .exits 0 ∨ bAllGood.cfd = .hangs) ∧
      ¬ lastTime avgEx < 20 := by
  have h : trial bAllGood covEx avgEx = .persisted [-3, 1] := by
    norm_num [trial, mesh_case, run_case, system, system_timeout, bAllGood,
      extractError, errorVector, listMean, windowSelect, lastTime, covEx,
      avgEx, List.filter]
  have hc := trial_persist_conditions bAllGood covEx avgEx [-3, 1] h
  exact ⟨hc.2.2.1, hc.2.2.2.2.1, hc.2.2.2.2.2.2.2.1⟩

/-- C5: for the synthetic series with timestamps 0..25, the trailing window
selects exactly the rows with timestamp greater than 24 (here the single row
at 25), the windowed mean is that row's value, the final timestamp is 25,
and extraction fails with the insufficient-runtime error whenever the
volAverage series' final timestamp is below 20. -/
theorem extract_window_and_runtime_check (v : ℕ → ℚ)
    (covData : List (ℚ × ℚ)) :
    windowSelect (synSeries v) = [v 25] ∧
      listMean (windowSelect (synSeries v)) = v 25 ∧
      lastTime (synSeries v) = 25 ∧
      ∀ avgData, lastTime avgData < 20 →
        extractError covData avgData =
          .error "Simulation did not run for 20 seconds" := by
  have hw : windowSelect (synSeries v) = [v 25] := by
    norm_num [windowSelect, synSeries, lastTime, List.range_succ, List.filter]
  refine ⟨hw, ?_, ?_, ?_⟩
  · rw [hw]
    simp [listMean]
  · norm_num [lastTime, synSeries, List.range_succ]
  · intro avgData hlt
    simp [extractError, hlt]

/-- C5 witness: the identity-valued synthetic series has windowed selection
[25], and extraction against a series ending at time 5 fails with the
insufficient-runtime error. -/
theorem extract_window_and_runtime_check_witness :
    windowSelect (synSeries fun i => (i : ℚ)) = [25] ∧
      extractError covEx covShort =
        .error "Simulation did not run for 20 seconds" := by
  constructor
  · have h := (extract_window_and_runtime_check (fun i => (i : ℚ)) covEx).1
    simpa using h
  · exact (extract_window_and_runtime_check (fun i => (i : ℚ)) covEx).2.2.2
      covShort (by norm_num [lastTime, covShort])

/-- C6 counterexample: a nonzero exit of the between-stage cleanup (deleting
the decomposed mesh) raises CalledProcessError and aborts the trial, with no
error vector persisted — refuting "cleanup failures are swallowed and logged
only, and never abort the pipeline". -/
theorem cleanup_failure_counterexample :
    bCleanupFail.meshCleanup = 1 ∧
      trial bCleanupFail covEx avgEx = .raised "CalledProcessError" := by
  exact ⟨rfl, rfl⟩

/-- C6 amended: a failing between-stage cleanup aborts the pipeline, because
cleanups run through the same checked `system` wrapper as the stages; any
nonzero cleanup exit raises CalledProcessError and no output is produced
(though `rm -rf` exits 0 on nonexistent paths, so a merely-missing path does
not fail). -/
theorem cleanup_failure_aborts (b : StageBehaviors)
    (covData avgData : List (ℚ × ℚ)) (hgv : b.geomVessel = 0)
    (hgi : b.geomImpeller = 0) (hm : b.mesh = .exits 0)
    (hc : b.meshCleanup ≠ 0) :
    trial b covData avgData = .raised "CalledProcessError" := by
  obtain ⟨gv, gi, mesh, msurv, mc, cfd, csurv, c4, c5⟩ := b
  simp only at hgv hgi hm hc
  subst hgv hgi hm
  simp [trial, mesh_case, system, system_timeout, hc]

/-- C6 witness: the cleanup-aborts theorem applied at a concrete behaviour
where the cleanup exits with code 2. -/
theorem cleanup_failure_aborts_witness :
    trial bCleanupFail2 covEx avgEx = .raised "CalledProcessError" :=
  cleanup_failure_aborts bCleanupFail2 covEx avgEx rfl rfl rfl (by decide)

/-- C7 counterexample: persisting the payload [1,2,3] is not atomic from the
consumer's point of view — the output path passes through an observable
state (the empty file created by open) that does not hold the complete
payload. -/
theorem persist_not_atomic_counterexample :
    ¬ atomicFromConsumer (persistStates [1, 2, 3]) [1, 2, 3] := by
  decide

/-- C7 amended: the persister writes the error vector by opening the output
path directly and writing in place, not by write-then-rename: the final
observable state of the output path holds the complete payload, but for any
nonempty payload a poller can observe the path existing with incomplete
(empty) content before the write finishes. -/
theorem persist_in_place (payload : List ℕ) :
    (persistStates payload).getLast? = some payload ∧
      (payload ≠ [] →
        ¬ atomicFromConsumer (persistStates payload) payload) := by
  constructor
  · rfl
  · intro hne h
    exact hne ((h [] (by simp [persistStates])).symm)

/-- C7 witness: the in-place persistence theorem applied at payload [7]. -/
theorem persist_in_place_witness :
    (persistStates [7]).getLast? = some [7] ∧
      ¬ atomicFromConsumer (persistStates [7]) [7] :=
  ⟨(persist_in_place [7]).1, (persist_in_place [7]).2 (by decide)⟩

/-- C9: building the case twice on the same workspace with the same
parameter set is idempotent: the second run also succeeds (the builder is a
total function — `dirs_exist_ok=True` makes the existing workspace
harmless), and because the template copy overwrites the settings documents,
the written documents depend only on the template and the parameters, so
both runs yield identical documents. -/
theorem create_case_idempotent (template : Workspace) (p : String → ℚ)
    (ws : Workspace) :
    create_case template p (create_case template p ws) =
        create_case template p ws ∧
      ∀ ws1 ws2, create_case template p ws1 = create_case template p ws2 :=
  ⟨rfl, fun _ _ => rfl⟩

/-- C10: whether extraction raises depends only on the volAverage series —
it raises exactly when that series' final timestamp is below 20, identically
for any CoV series; and a CoV series ending before 20 seconds never triggers
the failure by itself: if the volAverage series is long enough, extraction
succeeds and still returns the vector built from both windowed means. -/
theorem runtime_check_uses_avg_only (covData covData' avgData :
    List (ℚ × ℚ)) :
    isError (extractError covData avgData) =
        isError (extractError covData' avgData) ∧
      (isError (extractError covData avgData) = true ↔
        lastTime avgData < 20) ∧
      (lastTime covData < 20 → ¬ lastTime avgData < 20 →
        extractError covData avgData = .ok (errorVector covData avgData)) := by
  refine ⟨?_, ?_, ?_⟩
  · by_cases h : lastTime avgData < 20 <;> simp [extractError, isError, h]
  · by_cases h : lastTime avgData < 20 <;> simp [extractError, isError, h]
  · intro _ h
    simp [extractError, h]

/-- C10 witness: a CoV series ending at time 5 with a volAverage series
ending at time 25 extracts successfully. -/
theorem runtime_check_uses_avg_only_witness :
    extractError covShort avgEx = .ok (errorVector covShort avgEx) :=
  (runtime_check_uses_avg_only covShort covShort avgEx).2.2
    (by norm_num [lastTime, covShort]) (by norm_num [lastTime, avgEx])
